import Mathlib

/-!
Verification development for the Alpine sing-box configuration receiver
(single-file Express server).  The definitions below are a shallow embedding
of the server's helper functions and of the `/deploy` request handler:

* `JVal`, `jsLookup`, `jsOr`, `jsFalsy` — a small model of the JSON values
  manipulated by the handler and of the JavaScript truthiness used in
  `rawConfig.dns || {}`;
* `sanitize` — STEP 2 of the handler (the `cleanConfig` construction plus the
  empty-field removal loop);
* `Timestamp`, `isoString`, `backupName` — the timestamp-derived backup file
  name `proxy_YYYYMMDDHHMMSS.json` built in `rotateBackups`;
* `writeBackup`, `pruneBackups`, `rotateBackups` — the rolling backup
  mechanism (archival write, mtime-descending sort, deletion of entries
  beyond `MAX_BACKUPS`, with pruning failures caught and logged);
* `FS`, `atomicWrite` — the temp-file-then-rename atomic writer, with an
  explicit list of the intermediate filesystem states it goes through;
* `healthWatch` — STEP 6, the post-restart crash-loop detection loop;
* `deploy` — the whole `/deploy` handler: authentication, deployment lock,
  decrypt/parse, sanitize, backup, atomic apply, check/restart commands,
  health monitoring, and the catch-block rollback / first-deployment cleanup,
  with the `finally` that releases the lock.

External effects (command execution, decryption, clock, probe results) are
supplied by oracle functions in `World`; the handler's own disk writes are
modelled as succeeding (write failures are studied at the `atomicWrite`
level, where the code's error handling for them lives).
-/

/-- JSON values as decoded by `JSON.parse`.  `num` carries an `Int`; numeric
precision is irrelevant to every property studied here. -/
inductive JVal : Type where
  | null : JVal
  | bool : Bool → JVal
  | num : Int → JVal
  | str : String → JVal
  | arr : List JVal → JVal
  | obj : List (String × JVal) → JVal

/-- Property lookup on a decoded JSON object: `raw[k]`, `none` = undefined. -/
def jsLookup (raw : List (String × JVal)) (k : String) : Option JVal :=
  (raw.find? (fun kv => kv.1 == k)).map (fun kv => kv.2)

/-- JavaScript falsiness of a decoded JSON value (`null`, `false`, `0`, `""`).
`undefined` is represented as `Option.none` one level up. -/
def jsFalsy : JVal → Bool
  | JVal.null => true
  | JVal.bool false => true
  | JVal.num 0 => true
  | JVal.str "" => true
  | _ => false

/-- The JavaScript expression `v || d` applied to a possibly-undefined
property value. -/
def jsOr (o : Option JVal) (d : JVal) : JVal :=
  match o with
  | none => d
  | some v => if jsFalsy v then d else v

/-- Is the value `null`?  (`cleanConfig[k] === null` in the removal loop.) -/
def jIsNull : JVal → Bool
  | JVal.null => true
  | _ => false

/-- STEP 2 of the handler before the removal loop: the `cleanConfig` object
literal.  A `none` second component is a field holding `undefined`
(`rawConfig.ntp` when absent). -/
def cleanConfigRaw (raw : List (String × JVal)) : List (String × Option JVal) :=
  [("dns", some (jsOr (jsLookup raw "dns") (JVal.obj []))),
   ("outbounds", some (jsOr (jsLookup raw "outbounds") (JVal.arr []))),
   ("route", some (jsOr (jsLookup raw "route") (JVal.obj []))),
   ("ntp", jsLookup raw "ntp")]

/-- STEP 2 of the handler: `cleanConfig` followed by the
`Object.keys(cleanConfig).forEach` loop that deletes fields whose value is
`undefined` or `null`. -/
def sanitize (raw : List (String × JVal)) : List (String × JVal) :=
  (cleanConfigRaw raw).filterMap (fun kv =>
    match kv.2 with
    | none => none
    | some v => if jIsNull v then none else some (kv.1, v))

/-!  Timestamps and backup file names (`rotateBackups`, lines 176-183). -/

/-- A wall-clock instant as exposed by `Date.prototype.toISOString`
(UTC calendar fields plus milliseconds). -/
structure Timestamp : Type where
  year : Nat
  month : Nat
  day : Nat
  hour : Nat
  minute : Nat
  second : Nat
  ms : Nat
deriving Repr, DecidableEq

/-- Fixed-width zero-padded decimal rendering of one ISO-8601 component
(2 digits, as in `toISOString`). -/
def pad2 (n : Nat) : String :=
  String.mk [Nat.digitChar (n / 10 % 10), Nat.digitChar (n % 10)]

/-- Fixed-width zero-padded decimal rendering, 4 digits (the year). -/
def pad4 (n : Nat) : String :=
  String.mk [Nat.digitChar (n / 1000 % 10), Nat.digitChar (n / 100 % 10),
             Nat.digitChar (n / 10 % 10), Nat.digitChar (n % 10)]

/-- Fixed-width zero-padded decimal rendering, 3 digits (milliseconds). -/
def pad3 (n : Nat) : String :=
  String.mk [Nat.digitChar (n / 100 % 10), Nat.digitChar (n / 10 % 10),
             Nat.digitChar (n % 10)]

/-- `new Date().toISOString()`: `YYYY-MM-DDTHH:mm:ss.sssZ`. -/
def isoString (t : Timestamp) : String :=
  pad4 t.year ++ "-" ++ pad2 t.month ++ "-" ++ pad2 t.day ++ "T" ++
  pad2 t.hour ++ ":" ++ pad2 t.minute ++ ":" ++ pad2 t.second ++ "." ++
  pad3 t.ms ++ "Z"

/-- `.replace(/[-:T]/g, '')`: drop every dash, colon and capital T. -/
def stripSeps (s : String) : String :=
  String.mk (s.data.filter (fun c => !(c == '-' || c == ':' || c == 'T')))

/-- `.slice(0, 14)`: keep the first 14 characters. -/
def slice14 (s : String) : String :=
  String.mk (s.data.take 14)

/-- The backup file name built in `rotateBackups`:
`proxy_` + first 14 chars of the separator-stripped ISO string + `.json`,
i.e. `proxy_YYYYMMDDHHMMSS.json` — milliseconds are truncated away. -/
def backupName (t : Timestamp) : String :=
  "proxy_" ++ slice14 (stripSeps (isoString t)) ++ ".json"

/-!  The backup directory and the rolling backup mechanism. -/

/-- One file in the backup directory: its name, its filesystem modification
time (`fs.statSync(..).mtime.getTime()`), and its content. -/
structure BEntry : Type where
  name : String
  mtime : Nat
  content : String
deriving Repr, DecidableEq

/-- `fs.writeFileSync(backupPath, content)`: overwrite the entry if a file of
that name exists (refreshing its mtime), otherwise create it. -/
def writeBackup (dir : List BEntry) (e : BEntry) : List BEntry :=
  if dir.any (fun x => x.name == e.name) then
    dir.map (fun x => if x.name == e.name then e else x)
  else
    dir ++ [e]

/-- JavaScript `s.startsWith(p)`, at the character level. -/
def strStartsWith (s p : String) : Bool := p.data.isPrefixOf s.data

/-- JavaScript `s.endsWith(p)`, at the character level. -/
def strEndsWith (s p : String) : Bool := p.data.isSuffixOf s.data

/-- The filter applied when pruning: `f.startsWith('proxy_') && f.endsWith('.json')`. -/
def matchesBackup (s : String) : Bool :=
  strStartsWith s "proxy_" && strEndsWith s ".json"

/-- Read the content of the named file in the backup directory
(`none` if absent). -/
def bLookup (dir : List BEntry) (name : String) : Option String :=
  (dir.find? (fun e => e.name == name)).map (fun e => e.content)

/-- Insertion step of the mtime-descending sort. -/
def insertDesc (x : BEntry) : List BEntry → List BEntry
  | [] => [x]
  | y :: ys => if x.mtime ≤ y.mtime then y :: insertDesc x ys else x :: y :: ys

/-- `.sort((a, b) => b.time - a.time)`: newest first. -/
def sortDesc (l : List BEntry) : List BEntry :=
  l.foldr insertDesc []

/-- Step 3 of `rotateBackups`: list the `proxy_*.json` files, sort them by
mtime descending, and delete every entry beyond `maxB` (the code's
`CONFIG.MAX_BACKUPS`). -/
def pruneBackups (maxB : Nat) (dir : List BEntry) : List BEntry :=
  let files := sortDesc (dir.filter (fun e => matchesBackup e.name))
  if maxB < files.length then
    let toDelete := files.drop maxB
    dir.filter (fun e => !(toDelete.any (fun d => d.name == e.name)))
  else
    dir

/-- `rotateBackups`: write the archival copy, then prune.  The pruning block
is wrapped in `try/catch` in the source: a pruning failure (modelled by
`pruneOk = false`) is logged and swallowed, leaving the freshly written
backup in place and raising no error. -/
def rotateBackups (maxB : Nat) (dir : List BEntry) (e : BEntry)
    (pruneOk : Bool) : List BEntry :=
  let dir1 := writeBackup dir e
  if pruneOk then pruneBackups maxB dir1 else dir1

/-!  The atomic writer (`atomicWrite`, lines 123-135). -/

/-- A filesystem: a partial map from paths to file contents. -/
def FS : Type := String → Option String

/-- `fs.writeFileSync p v` (also the effect of a rename target). -/
def fsSet (fs : FS) (p v : String) : FS :=
  fun q => if q = p then some v else fs q

/-- `fs.unlinkSync p`. -/
def fsDel (fs : FS) (p : String) : FS :=
  fun q => if q = p then none else fs q

/-- Result of one `atomicWrite` call: every filesystem state the call went
through (in order, one snapshot after each primitive mutation), the final
state, and the propagated error if the call threw. -/
structure AWResult : Type where
  states : List FS
  final : FS
  error : Option String

/-- The cleanup in `atomicWrite`'s catch block:
`if (fs.existsSync(tempPath)) try { fs.unlinkSync(tempPath) } catch {}`.
`unlinkOk = false` models the inner catch swallowing an unlink failure. -/
def awCleanup (fs1 : FS) (tempPath : String) (unlinkOk : Bool) : FS :=
  if (fs1 tempPath).isSome then
    if unlinkOk then fsDel fs1 tempPath else fs1
  else fs1

/-- `atomicWrite(filePath, content)`: write to `filePath + ".tmp." + Date.now()`,
then rename onto `filePath` (atomic).  Oracles: `writeOk` — whether
`writeFileSync` succeeds; `writePart` — the partial content the failed write
left in the temp file, if any; `renameOk` — whether `renameSync` succeeds;
`unlinkOk` — whether the best-effort cleanup unlink succeeds. -/
def atomicWrite (fs : FS) (filePath content : String) (nowMs : Nat)
    (writeOk : Bool) (writePart : Option String)
    (renameOk unlinkOk : Bool) : AWResult :=
  let tempPath := filePath ++ ".tmp." ++ toString nowMs
  if writeOk then
    let fs1 := fsSet fs tempPath content
    if renameOk then
      let fs2 := fsSet (fsDel fs1 tempPath) filePath content
      ⟨[fs1, fs2], fs2, none⟩
    else
      let fs2 := awCleanup fs1 tempPath unlinkOk
      ⟨[fs1, fs2], fs2, some "rename failed"⟩
  else
    let fs1 := match writePart with
      | some pc => fsSet fs tempPath pc
      | none => fs
    let fs2 := awCleanup fs1 tempPath unlinkOk
    ⟨[fs1, fs2], fs2, some "write failed"⟩

/-!  The `CONFIG` constants used by the handler. -/

def CONFIG_TOKEN : String := "my_token_123"

def BASE_DIR : String := "/etc/sing-box/conf.d"

def BACKUP_DIR : String := "/etc/sing-box/backups"

def PROXY_FILE : String := "10-proxy.json"

def SYSTEM_FILE : String := "00-system.json"

def MAX_BACKUPS : Nat := 3

def CMD_RESTART : String := "rc-service sing-box restart"

def CMD_STATUS : String := "rc-service sing-box status"

def CMD_CHECK : String := "/usr/bin/sing-box check -C /etc/sing-box/conf.d"

def INITIAL_DELAY : Nat := 1500

def CHECK_COUNT : Nat := 5

def INTERVAL : Nat := 1000

/-- `path.join(CONFIG.BASE_DIR, CONFIG.PROXY_FILE)`. -/
def targetPath : String := BASE_DIR ++ "/" ++ PROXY_FILE

/-- `path.join(CONFIG.BASE_DIR, CONFIG.SYSTEM_FILE)`. -/
def sysPath : String := BASE_DIR ++ "/" ++ SYSTEM_FILE

/-!  Serialization (`JSON.stringify`).  The handler writes
`JSON.stringify(cleanConfig, null, 2)`; the pretty-printing whitespace of the
2-space indent is abstracted away (no property below inspects the bytes of a
serialized document), keys, order and values are preserved. -/

mutual

/-- `JSON.stringify` of one value (whitespace-free rendering). -/
def jvalStr : JVal → String
  | JVal.null => "null"
  | JVal.bool true => "true"
  | JVal.bool false => "false"
  | JVal.num n => toString n
  | JVal.str s => "\"" ++ s ++ "\""
  | JVal.arr xs => "[" ++ jvalListStr xs ++ "]"
  | JVal.obj fs => "\x7b" ++ jvalFieldsStr fs ++ "\x7d"

/-- Comma-separated rendering of array elements. -/
def jvalListStr : List JVal → String
  | [] => ""
  | [x] => jvalStr x
  | x :: xs => jvalStr x ++ "," ++ jvalListStr xs

/-- Comma-separated rendering of object fields. -/
def jvalFieldsStr : List (String × JVal) → String
  | [] => ""
  | [(k, v)] => "\"" ++ k ++ "\":" ++ jvalStr v
  | (k, v) :: fs => "\"" ++ k ++ "\":" ++ jvalStr v ++ "," ++ jvalFieldsStr fs

end

/-- `JSON.stringify` of a decoded top-level document. -/
def stringifyObj (doc : List (String × JVal)) : String :=
  "\x7b" ++ jvalFieldsStr doc ++ "\x7d"

/-- `DEFAULT_SYSTEM_CONFIG`, the Alpine TUN template generated when
`00-system.json` is missing. -/
def DEFAULT_SYSTEM_CONFIG : List (String × JVal) :=
  [("log", JVal.obj
     [("level", JVal.str "info"),
      ("output", JVal.str "/var/log/sing-box.log"),
      ("timestamp", JVal.bool true)]),
   ("inbounds", JVal.arr
     [JVal.obj
       [("type", JVal.str "tun"),
        ("tag", JVal.str "tun-in"),
        ("interface_name", JVal.str "tun0"),
        ("inet4_address", JVal.str "172.19.0.1/30"),
        ("mtu", JVal.num 9000),
        ("auto_route", JVal.bool true),
        ("strict_route", JVal.bool true),
        ("stack", JVal.str "system"),
        ("sniff", JVal.bool true),
        ("sniff_override_destination", JVal.bool false)]]),
   ("experimental", JVal.obj
     [("cache_file", JVal.obj
        [("enabled", JVal.bool true),
         ("path", JVal.str "/var/lib/sing-box/cache.db"),
         ("store_fakeip", JVal.bool true)]),
      ("clash_api", JVal.obj
        [("external_controller", JVal.str "0.0.0.0:9090"),
         ("external_ui", JVal.str "/usr/share/sing-box/ui")])])]

/-- The serialized default system configuration written by
`ensureSystemConfig`. -/
def defaultSystemText : String := stringifyObj DEFAULT_SYSTEM_CONFIG

/-!  Observable events of one `/deploy` request (disk operations, external
commands, suspensions, liveness probes, log lines). -/

/-- One observable effect performed by the handler. -/
inductive Ev : Type where
  | writeFile (path content : String)
  | readFile (path : String)
  | deleteFile (path : String)
  | cmdRun (cmd : String) (ok : Bool)
  | sleep (ms : Nat)
  | probe (ok : Bool)
  | logMsg (msg : String)
deriving Repr, DecidableEq

/-- The crash-loop error message thrown by STEP 6 at probe ordinal `i`. -/
def crashMsg (i : Nat) : String :=
  "服务在启动后第 " ++ toString i ++ " 次轮询时发现已停止 (CrashLoop)"

/-- The probe loop of STEP 6 (`for (let i = 1; i <= CHECK_COUNT; i++)`).
`probes` yields the successive `checkServiceHealth()` results (consumed from
index `pIdx` on), `i` is the 1-based ordinal of the next probe, and the fuel
argument is the number of probes still to perform.  Returns the emitted
events and `some i` if probe `i` reported the daemon stopped (the loop throws
and performs no further probe), `none` if every probe reported running.
An interval sleep separates consecutive probes (`if (i < CHECK_COUNT)`). -/
def healthLoopAux (probes : Nat → Bool) (pIdx i : Nat) :
    Nat → List Ev × Option Nat
  | 0 => ([], none)
  | rem + 1 =>
    if probes pIdx then
      if rem = 0 then ([Ev.probe true], none)
      else
        let r := healthLoopAux probes (pIdx + 1) (i + 1) rem
        (Ev.probe true :: Ev.sleep INTERVAL :: r.1, r.2)
    else ([Ev.probe false], some i)

/-- STEP 6 in full: suspend for `INITIAL_DELAY`, then run the probe loop
(`CHECK_COUNT` probes starting at probe stream index 0). -/
def healthWatch (probes : Nat → Bool) : List Ev × Option Nat :=
  let r := healthLoopAux probes 0 1 CHECK_COUNT
  (Ev.sleep INITIAL_DELAY :: r.1, r.2)

/-!  The `/deploy` handler. -/

/-- The server's state as far as one request can observe or mutate it:
the global `isDeploying` lock, the business file `10-proxy.json` (content, or
`none` if absent), the system file `00-system.json`, and the backup
directory. -/
structure SrvState : Type where
  isDeploying : Bool
  business : Option String
  system : Option String
  backups : List BEntry

/-- One incoming `/deploy` request: the `Authorization` header and the
`content` field of the JSON body (absent = `undefined`). -/
structure Request : Type where
  authorization : Option String
  content : Option String

/-- Oracles for everything outside the handler: AES decryption
(`CryptoJS.AES.decrypt(..).toString(Utf8)`, `""` = failed/secret mismatch),
`JSON.parse` (`none` = throws), the successive `runCmd` outcomes
(`none` = exit 0, `some stderr` = the command failed, indexed by invocation
order), the successive `checkServiceHealth()` results, and the wall clock at
the backup step. -/
structure World : Type where
  decrypt : String → String
  parse : String → Option (List (String × JVal))
  cmds : Nat → Option String
  probes : Nat → Bool
  now : Timestamp
  nowMtime : Nat

/-- The JSON body of the HTTP response. -/
inductive RBody : Type where
  | unauthorized
  | locked
  | ok
  | err (msg : String)
deriving Repr, DecidableEq

/-- An HTTP response: status code and body. -/
structure Resp : Type where
  status : Nat
  body : RBody
deriving Repr, DecidableEq

/-- The handler's catch block (lines 322-354): roll back if a rollback
context exists (atomically re-apply the old content, restart, wait 2s, one
re-probe, log recovered or fatal — any error inside the rollback is caught
and logged as `回滚过程异常`); otherwise delete the target file if it exists
(the "first-deployment cleanup" branch); then answer 500 with the original
error message.  `cmdIdx`/`probeIdx` are the next unconsumed oracle indices. -/
def deployCatch (w : World) (s : SrvState) (tr : List Ev)
    (rollbackContent : Option String) (cmdIdx probeIdx : Nat)
    (errMsg : String) : SrvState × Resp × List Ev :=
  match rollbackContent with
  | some old =>
    let s1 := { s with business := some old }
    let tr1 := tr ++ [Ev.logMsg "正在回滚至上一版本...", Ev.writeFile targetPath old]
    match w.cmds cmdIdx with
    | some m =>
      (s1, ⟨500, RBody.err errMsg⟩,
       tr1 ++ [Ev.cmdRun CMD_RESTART false,
               Ev.logMsg ("回滚过程异常: 命令执行失败: " ++ m)])
    | none =>
      let ok := w.probes probeIdx
      (s1, ⟨500, RBody.err errMsg⟩,
       tr1 ++ [Ev.cmdRun CMD_RESTART true, Ev.sleep 2000, Ev.probe ok,
               Ev.logMsg (if ok then "✅ 回滚成功，服务已恢复"
                          else "💀 致命：回滚后服务仍无法启动，请人工介入")])
  | none =>
    match s.business with
    | some _ =>
      ({ s with business := none }, ⟨500, RBody.err errMsg⟩,
       tr ++ [Ev.deleteFile targetPath, Ev.logMsg "清理无效的首次部署文件"])
    | none => (s, ⟨500, RBody.err errMsg⟩, tr)

/-- The handler's `try` block, STEP 0 through STEP 6 (lines 244-320).  Every
`throw` transfers to `deployCatch` with the state, trace, rollback context
and oracle positions of the throw site.  The handler's own disk writes are
modelled as succeeding (see the header comment). -/
def deployTry (w : World) (s0 : SrvState) (req : Request) :
    SrvState × Resp × List Ev :=
  -- STEP 0: ensureSystemConfig
  let s := if s0.system = none then { s0 with system := some defaultSystemText } else s0
  let tr : List Ev :=
    if s0.system = none then [Ev.writeFile sysPath defaultSystemText] else []
  -- STEP 1: decrypt & parse
  match req.content with
  | none => deployCatch w s tr none 0 0 "Payload empty"
  | some c =>
    if c = "" then deployCatch w s tr none 0 0 "Payload empty"
    else
      let decrypted := w.decrypt c
      if decrypted = "" then
        deployCatch w s tr none 0 0
          "数据解析失败: Decryption failed / Secret mismatch"
      else
        match w.parse decrypted with
        | none => deployCatch w s tr none 0 0 "数据解析失败: JSON parse error"
        | some rawConfig =>
          -- STEP 2: discrete configuration strategy
          let cleanConfig := sanitize rawConfig
          -- STEP 3: backup (read the old content, archive it)
          let rollbackContent := s.business
          let s1 :=
            match s.business with
            | some old =>
              { s with backups :=
                  (rotateBackups MAX_BACKUPS s.backups
                    ⟨backupName w.now, w.nowMtime, old⟩ true) }
            | none => s
          let tr1 :=
            match s.business with
            | some old =>
              tr ++ [Ev.readFile targetPath,
                     Ev.writeFile (BACKUP_DIR ++ "/" ++ backupName w.now) old]
            | none => tr
          -- STEP 4: atomic write of the new configuration
          let newText := stringifyObj cleanConfig
          let s2 := { s1 with business := some newText }
          let tr2 := tr1 ++ [Ev.writeFile targetPath newText]
          -- STEP 5: syntax check, then restart
          match w.cmds 0 with
          | some m =>
            deployCatch w s2 (tr2 ++ [Ev.cmdRun CMD_CHECK false])
              rollbackContent 1 0 ("命令执行失败: " ++ m)
          | none =>
            let tr3 := tr2 ++ [Ev.cmdRun CMD_CHECK true]
            match w.cmds 1 with
            | some m =>
              deployCatch w s2 (tr3 ++ [Ev.cmdRun CMD_RESTART false])
                rollbackContent 2 0 ("命令执行失败: " ++ m)
            | none =>
              let tr4 := tr3 ++ [Ev.cmdRun CMD_RESTART true]
              -- STEP 6: health monitoring
              let h := healthWatch w.probes
              let tr5 := tr4 ++ h.1
              match h.2 with
              | some i => deployCatch w s2 tr5 rollbackContent 2 i (crashMsg i)
              | none =>
                (s2, ⟨200, RBody.ok⟩, tr5 ++ [Ev.logMsg "🎉 部署成功：服务运行稳定"])

/-- The whole `/deploy` handler: authentication (exact match of the
`Authorization` header against `Bearer ` + token), the `isDeploying` lock
check, the `try` body with its catch block, and the `finally` that clears the
lock unconditionally. -/
def deploy (w : World) (s : SrvState) (req : Request) :
    SrvState × Resp × List Ev :=
  if req.authorization = some ("Bearer " ++ CONFIG_TOKEN) then
    if s.isDeploying then
      (s, ⟨429, RBody.locked⟩, [])
    else
      let out := deployTry w { s with isDeploying := true } req
      ({ out.1 with isDeploying := false }, out.2.1, out.2.2)
  else
    (s, ⟨401, RBody.unauthorized⟩, [])

/-- A world whose oracles are inert: decryption fails, parsing fails, every
command succeeds, every probe reports running. -/
def plainWorld : World :=
  ⟨fun _ => "", fun _ => none, fun _ => none, fun _ => true, ⟨2026, 1, 1, 0, 0, 0, 0⟩, 0⟩

/-- A world for the crash-loop scenario: the payload decrypts and parses, the
check and restart commands succeed, the daemon is seen running on probe 1 but
stopped on probe 2, and the post-rollback probe sees it running again. -/
def rollbackDemoWorld : World :=
  ⟨fun c => if c = "CIPHER" then "PLAIN" else "",
   fun t => if t = "PLAIN" then some [] else none,
   fun _ => none,
   fun i => i != 1,
   ⟨2026, 1, 1, 0, 0, 0, 0⟩, 0⟩

/-- Server state with an existing business configuration `OLD`. -/
def rollbackDemoState : SrvState := ⟨false, some "OLD", some "SYS", []⟩

/-- A well-authenticated request carrying the `CIPHER` payload. -/
def rollbackDemoReq : Request := ⟨some "Bearer my_token_123", some "CIPHER"⟩

/-!  Helper lemmas. -/

lemma jIsNull_jsOr (o : Option JVal) (d : JVal) (hd : jIsNull d = false) :
    jIsNull (jsOr o d) = false := by
  match o with
  | none => simpa [jsOr]
  | some v =>
    simp only [jsOr]
    split
    · exact hd
    · rename_i hv
      cases v <;> simp_all [jIsNull, jsFalsy]

lemma sanitize_keys_sub (raw : List (String × JVal)) (k : String)
    (hk : k ∈ (sanitize raw).map Prod.fst) :
    k ∈ (cleanConfigRaw raw).map Prod.fst := by
  simp only [List.mem_map] at hk ⊢
  obtain ⟨x, hx, rfl⟩ := hk
  simp only [sanitize, List.mem_filterMap] at hx
  obtain ⟨a, ha, hfa⟩ := hx
  refine ⟨a, ha, ?_⟩
  match h2 : a.2 with
  | none => simp [h2] at hfa
  | some v =>
    simp only [h2] at hfa
    split at hfa
    · exact absurd hfa (by simp)
    · cases hfa
      rfl

lemma tempPath_ne (filePath : String) (n : Nat) :
    filePath ++ ".tmp." ++ toString n ≠ filePath := by
  intro h
  have h2 := congrArg String.length h
  simp only [String.length_append] at h2
  have h5 : (".tmp." : String).length = 5 := rfl
  omega

lemma digitChar_ne_dash (m : Nat) : (Nat.digitChar (m % 10) == '-') = false := by
  have h : m % 10 < 10 := Nat.mod_lt _ (by norm_num)
  set k := m % 10 with hk
  interval_cases k <;> rfl

lemma digitChar_ne_colon (m : Nat) : (Nat.digitChar (m % 10) == ':') = false := by
  have h : m % 10 < 10 := Nat.mod_lt _ (by norm_num)
  set k := m % 10 with hk
  interval_cases k <;> rfl

lemma digitChar_ne_tee (m : Nat) : (Nat.digitChar (m % 10) == 'T') = false := by
  have h : m % 10 < 10 := Nat.mod_lt _ (by norm_num)
  set k := m % 10 with hk
  interval_cases k <;> rfl

lemma stripSeps_iso (t : Timestamp) :
    (stripSeps (isoString t)).data =
      ((pad4 t.year).data ++ (pad2 t.month).data ++ (pad2 t.day).data ++
       (pad2 t.hour).data ++ (pad2 t.minute).data ++ (pad2 t.second).data) ++
      ('.' :: ((pad3 t.ms).data ++ ['Z'])) := by
  simp [stripSeps, isoString, pad4, pad2, pad3, digitChar_ne_dash,
    digitChar_ne_colon, digitChar_ne_tee]

lemma slice14_stripSeps_iso (t : Timestamp) :
    slice14 (stripSeps (isoString t)) =
      String.mk ((pad4 t.year).data ++ (pad2 t.month).data ++ (pad2 t.day).data ++
        (pad2 t.hour).data ++ (pad2 t.minute).data ++ (pad2 t.second).data) := by
  have h := stripSeps_iso t
  simp only [slice14, h]
  rw [@List.take_left' Char _ ('.' :: ((pad3 t.ms).data ++ ['Z'])) 14 (by simp [pad4, pad2])]

lemma writeBackup_any_name (dir : List BEntry) (e : BEntry) :
    (writeBackup dir e).any (fun x => x.name == e.name) = true := by
  unfold writeBackup
  split
  · rename_i h
    rcases List.any_eq_true.mp h with ⟨x, hx, hxe⟩
    refine List.any_eq_true.mpr ⟨e, ?_, by simp⟩
    refine List.mem_map.mpr ⟨x, hx, ?_⟩
    simp [hxe]
  · refine List.any_eq_true.mpr ⟨e, by simp, by simp⟩

lemma writeBackup_length_present (dir : List BEntry) (e : BEntry)
    (h : dir.any (fun x => x.name == e.name) = true) :
    (writeBackup dir e).length = dir.length := by
  simp [writeBackup, h]

lemma find_renamed_eq (e : BEntry) (dir : List BEntry)
    (h : dir.any (fun x => x.name == e.name) = true) :
    (dir.map (fun x => if x.name == e.name then e else x)).find?
      (fun x => x.name == e.name) = some e := by
  induction dir with
  | nil => simp at h
  | cons x xs ih =>
    by_cases hx : (x.name == e.name) = true
    · simp [List.find?, hx]
    · have h2 : xs.any (fun x => x.name == e.name) = true := by
        rcases List.any_eq_true.mp h with ⟨y, hy, hye⟩
        rcases List.mem_cons.mp hy with rfl | hy2
        · exact absurd hye hx
        · exact List.any_eq_true.mpr ⟨y, hy2, hye⟩
      simp only [List.map_cons, List.find?]
      rw [if_neg (by simpa using hx)]
      simpa [hx] using ih h2

lemma find_appended_eq (e : BEntry) (dir : List BEntry)
    (h : dir.any (fun x => x.name == e.name) = false) :
    (dir ++ [e]).find? (fun x => x.name == e.name) = some e := by
  induction dir with
  | nil => simp [List.find?]
  | cons x xs ih =>
    simp only [List.any_cons, Bool.or_eq_false_iff] at h
    simp only [List.cons_append, List.find?, h.1]
    exact ih h.2

lemma bLookup_writeBackup (dir : List BEntry) (e : BEntry) :
    bLookup (writeBackup dir e) e.name = some e.content := by
  unfold bLookup writeBackup
  split
  · rename_i h
    rw [find_renamed_eq e dir h]
    rfl
  · rename_i h
    rw [find_appended_eq e dir (by simpa using h)]
    rfl

lemma writeBackup_overwrite (dir : List BEntry) (n c1 c2 : String) (m1 m2 : Nat) :
    (writeBackup (writeBackup dir ⟨n, m1, c1⟩) ⟨n, m2, c2⟩).length
      = (writeBackup dir ⟨n, m1, c1⟩).length ∧
    bLookup (writeBackup (writeBackup dir ⟨n, m1, c1⟩) ⟨n, m2, c2⟩) n = some c2 := by
  constructor
  · exact writeBackup_length_present _ _ (writeBackup_any_name dir ⟨n, m1, c1⟩)
  · exact bLookup_writeBackup (writeBackup dir ⟨n, m1, c1⟩) ⟨n, m2, c2⟩

lemma insertDesc_min (x : BEntry) (m : List BEntry)
    (h : ∀ z ∈ m, x.mtime < z.mtime) : insertDesc x m = m ++ [x] := by
  induction m with
  | nil => rfl
  | cons z zs ih =>
    have hz : x.mtime ≤ z.mtime := Nat.le_of_lt (h z (by simp))
    simp only [insertDesc, if_pos hz, List.cons_append]
    rw [ih (fun z2 hz2 => h z2 (by simp [hz2]))]

lemma sortDesc_ascending (l : List BEntry)
    (h : l.Pairwise (fun a b => a.mtime < b.mtime)) : sortDesc l = l.reverse := by
  induction l with
  | nil => rfl
  | cons x xs ih =>
    rcases List.pairwise_cons.mp h with ⟨hx, hxs⟩
    show insertDesc x (sortDesc xs) = (x :: xs).reverse
    rw [ih hxs, insertDesc_min x xs.reverse (fun z hz => hx z (List.mem_reverse.mp hz)),
      List.reverse_cons]

lemma writeBackup_absent (dir : List BEntry) (e : BEntry)
    (h : ∀ x ∈ dir, x.name ≠ e.name) : writeBackup dir e = dir ++ [e] := by
  have h2 : dir.any (fun x => x.name == e.name) = false :=
    List.any_eq_false.mpr (fun x hx => by simp [h x hx])
  simp [writeBackup, h2]

lemma rotate_step_slack (N : Nat) (dir : List BEntry) (e : BEntry)
    (hmatchd : ∀ x ∈ dir, matchesBackup x.name = true)
    (hmatche : matchesBackup e.name = true)
    (hne : ∀ x ∈ dir, x.name ≠ e.name)
    (hasc : (dir ++ [e]).Pairwise (fun a b => a.mtime < b.mtime))
    (hlt : dir.length < N) :
    rotateBackups N dir e true = dir ++ [e] := by
  have hwb : writeBackup dir e = dir ++ [e] := writeBackup_absent dir e hne
  have hfilter : (dir ++ [e]).filter (fun x => matchesBackup x.name) = dir ++ [e] := by
    refine List.filter_eq_self.mpr ?_
    intro a ha
    rcases List.mem_append.mp ha with ha2 | ha2
    · exact hmatchd a ha2
    · rcases List.mem_singleton.mp ha2 with rfl
      exact hmatche
  have hsort : sortDesc ((dir ++ [e]).filter (fun x => matchesBackup x.name)) =
      e :: dir.reverse := by
    rw [hfilter, sortDesc_ascending _ hasc]
    simp
  unfold rotateBackups pruneBackups
  rw [hwb]
  simp only [hsort, List.length_cons, List.length_reverse, if_true]
  rw [if_neg (by omega)]

lemma rotate_step_full (N : Nat) (hN : 0 < N) (dir : List BEntry) (e : BEntry)
    (hmatchd : ∀ x ∈ dir, matchesBackup x.name = true)
    (hmatche : matchesBackup e.name = true)
    (hne : ∀ x ∈ dir, x.name ≠ e.name)
    (hnodup : (dir.map BEntry.name).Nodup)
    (hasc : (dir ++ [e]).Pairwise (fun a b => a.mtime < b.mtime))
    (hlen : dir.length = N) :
    rotateBackups N dir e true = dir.tail ++ [e] := by
  have hwb : writeBackup dir e = dir ++ [e] := writeBackup_absent dir e hne
  have hfilter : (dir ++ [e]).filter (fun x => matchesBackup x.name) = dir ++ [e] := by
    refine List.filter_eq_self.mpr ?_
    intro a ha
    rcases List.mem_append.mp ha with ha2 | ha2
    · exact hmatchd a ha2
    · rcases List.mem_singleton.mp ha2 with rfl
      exact hmatche
  have hsort : sortDesc ((dir ++ [e]).filter (fun x => matchesBackup x.name)) =
      e :: dir.reverse := by
    rw [hfilter, sortDesc_ascending _ hasc]
    simp
  rcases dir with _ | ⟨hd, tl⟩
  · simp at hlen
    omega
  · have htllen : tl.length = N - 1 := by
      simp at hlen
      omega
    have hdrop : (e :: (hd :: tl).reverse).drop N = [hd] := by
      rw [List.reverse_cons]
      rw [show e :: (tl.reverse ++ [hd]) = (e :: tl.reverse) ++ [hd] from rfl]
      refine List.drop_left' ?_
      simp only [List.length_cons, List.length_reverse]
      omega
    have hhdtl : ∀ x ∈ tl, (hd.name == x.name) = false := by
      intro x hx
      have h3 := (List.nodup_cons.mp hnodup).1
      simp only [beq_eq_false_iff_ne, ne_eq]
      intro hcontra
      exact h3 (List.mem_map.mpr ⟨x, hx, hcontra.symm⟩)
    have hhde : (hd.name == e.name) = false := by
      simp only [beq_eq_false_iff_ne, ne_eq]
      exact hne hd (by simp)
    unfold rotateBackups pruneBackups
    rw [hwb]
    simp only [hsort, List.length_cons, List.length_reverse, if_true]
    simp only [List.length_cons] at hlen
    rw [if_pos (by omega), hdrop]
    show List.filter (fun x => !([hd].any (fun d => d.name == x.name)))
      ((hd :: tl) ++ [e]) = tl ++ [e]
    rw [List.cons_append, List.filter_cons_of_neg (by simp)]
    refine List.filter_eq_self.mpr ?_
    intro a ha
    rcases List.mem_append.mp ha with ha2 | ha2
    · simp [hhdtl a ha2]
    · rcases List.mem_singleton.mp ha2 with rfl
      simp [hhde]

lemma rotate_seq (N : Nat) (hN : 0 < N) (ops : List BEntry)
    (hmatch : ∀ e ∈ ops, matchesBackup e.name = true)
    (hnames : (ops.map BEntry.name).Nodup)
    (hmono : ops.Pairwise (fun a b => a.mtime < b.mtime)) :
    ops.foldl (fun d e => rotateBackups N d e true) [] = ops.drop (ops.length - N) := by
  induction ops using List.reverseRecOn with
  | nil => simp
  | append_singleton l e ih =>
    have hmatchl : ∀ x ∈ l, matchesBackup x.name = true :=
      fun x hx => hmatch x (by simp [hx])
    have hmatche : matchesBackup e.name = true := hmatch e (by simp)
    have hnamesl : (l.map BEntry.name).Nodup := by
      rw [List.map_append] at hnames
      exact hnames.sublist (List.sublist_append_left _ _)
    have hmonol : l.Pairwise (fun a b => a.mtime < b.mtime) :=
      hmono.sublist (List.sublist_append_left _ _)
    have hel : ∀ x ∈ l, x.mtime < e.mtime := by
      have hp := List.pairwise_append.mp hmono
      exact fun x hx => hp.2.2 x hx e (by simp)
    have hne : ∀ x ∈ l, x.name ≠ e.name := by
      rw [List.map_append] at hnames
      have hd := List.disjoint_of_nodup_append hnames
      intro x hx hcontra
      exact hd (List.mem_map.mpr ⟨x, hx, rfl⟩) (by simp [hcontra])
    rw [List.foldl_append]
    simp only [List.foldl_cons, List.foldl_nil]
    rw [ih hmatchl hnamesl hmonol]
    have hdirsub : (l.drop (l.length - N)).Sublist l := List.drop_sublist _ l
    have hdirlen : (l.drop (l.length - N)).length = l.length - (l.length - N) :=
      List.length_drop _ l
    have hdirmem : ∀ x ∈ l.drop (l.length - N), x ∈ l := fun x hx => hdirsub.subset hx
    have hasc : ((l.drop (l.length - N)) ++ [e]).Pairwise
        (fun a b => a.mtime < b.mtime) := by
      refine List.pairwise_append.mpr ⟨hmonol.sublist hdirsub, by simp, ?_⟩
      intro x hx y hy
      rcases List.mem_singleton.mp hy with rfl
      exact hel x (hdirmem x hx)
    have hlen2 : (l ++ [e]).length = l.length + 1 := by simp
    rw [hlen2]
    by_cases hcase : N ≤ l.length
    · -- the retained window is full: the step drops its oldest entry
      have hfull : (l.drop (l.length - N)).length = N := by omega
      rw [rotate_step_full N hN _ e (fun x hx => hmatchl x (hdirmem x hx)) hmatche
        (fun x hx => hne x (hdirmem x hx))
        (hnamesl.sublist (hdirsub.map BEntry.name)) hasc hfull]
      rw [List.tail_drop]
      rw [List.drop_append_of_le_length (by omega)]
      rw [show l.length + 1 - N = (l.length - N) + 1 by omega]
    · -- fewer than N backups so far: nothing is pruned
      have hslack : (l.drop (l.length - N)).length < N := by omega
      rw [rotate_step_slack N _ e (fun x hx => hmatchl x (hdirmem x hx)) hmatche
        (fun x hx => hne x (hdirmem x hx)) hasc hslack]
      rw [show l.length - N = 0 by omega, List.drop_zero,
        show l.length + 1 - N = 0 by omega, List.drop_zero]

/-!  The claims. -/

/-- Claim C1.  The claim states that a deployment whose payload fails to
decrypt or parse leaves a pre-existing business configuration file untouched.
The code violates this: with a business file `OLD_CONFIG` on disk and an
authenticated request with an empty payload, the handler throws before the
backup step, so the rollback context is still null, and the catch block's
first-deployment cleanup branch (`existsSync(targetPath) && !rollbackContent`)
deletes the pre-existing file.  This theorem evaluates the handler at that
failing input: the business file is gone afterwards. -/
theorem deploy_payload_error_deletes_existing_business :
    deploy
      ⟨fun _ => "", fun _ => none, fun _ => none, fun _ => true, ⟨2026, 1, 1, 0, 0, 0, 0⟩, 0⟩
      ⟨false, some "OLD_CONFIG", some "SYS", []⟩
      ⟨some "Bearer my_token_123", none⟩ =
    (⟨false, none, some "SYS", []⟩, ⟨500, RBody.err "Payload empty"⟩,
     [Ev.deleteFile targetPath, Ev.logMsg "清理无效的首次部署文件"]) := rfl

/-- Claim C2.  For every input document, the sanitized document contains only
keys drawn from dns, outbounds, route, ntp; in particular none of the
protected keys log, inbounds, experimental ever appears in the output,
regardless of what the input contains. -/
theorem sanitize_only_business_keys (raw : List (String × JVal)) (k : String)
    (hk : k ∈ (sanitize raw).map Prod.fst) :
    (k = "dns" ∨ k = "outbounds" ∨ k = "route" ∨ k = "ntp") ∧
    k ≠ "log" ∧ k ≠ "inbounds" ∧ k ≠ "experimental" := by
  have h1 := sanitize_keys_sub raw k hk
  have h2 : k = "dns" ∨ k = "outbounds" ∨ k = "route" ∨ k = "ntp" := by
    simpa [cleanConfigRaw] using h1
  refine ⟨h2, ?_, ?_, ?_⟩ <;> rcases h2 with h|h|h|h <;> subst h <;> decide

/-- Witness for C2: on the empty document, `dns` is an output key and
satisfies the key property. -/
theorem sanitize_only_business_keys_witness :
    ("dns" ∈ (sanitize []).map Prod.fst) ∧
    (("dns" = "dns" ∨ "dns" = "outbounds" ∨ "dns" = "route" ∨ "dns" = "ntp") ∧
     "dns" ≠ "log" ∧ "dns" ≠ "inbounds" ∧ "dns" ≠ "experimental") := by
  have hm : "dns" ∈ (sanitize []).map Prod.fst := by
    rw [show (sanitize []).map Prod.fst = ["dns", "outbounds", "route"] from rfl]
    decide
  exact ⟨hm, sanitize_only_business_keys [] "dns" hm⟩

/-- Counterexample to claim C3 as stated.  The claim says each of the four
fields dns, outbounds, route, ntp is defaulted to an empty mapping/sequence
when absent; but on the empty input document the sanitizer emits no `ntp` key
at all (`ntp` is the one field that is never defaulted). -/
theorem sanitize_ntp_not_defaulted_cex :
    "ntp" ∉ (sanitize []).map Prod.fst := by
  have h : (sanitize []).map Prod.fst = ["dns", "outbounds", "route"] := rfl
  rw [h]
  decide

/-- Claim C3, amended.  dns, outbounds and route are each defaulted to an
empty mapping/sequence when absent (or null/falsy) in the input; ntp is not
defaulted: it is kept exactly when present and non-null, and dropped entirely
(rather than serialized as null) when absent or null; no output value is
null. -/
theorem sanitize_defaults_amended (raw : List (String × JVal)) :
    jsLookup (sanitize raw) "dns" = some (jsOr (jsLookup raw "dns") (JVal.obj [])) ∧
    jsLookup (sanitize raw) "outbounds" = some (jsOr (jsLookup raw "outbounds") (JVal.arr [])) ∧
    jsLookup (sanitize raw) "route" = some (jsOr (jsLookup raw "route") (JVal.obj [])) ∧
    jsLookup (sanitize raw) "ntp" = (match jsLookup raw "ntp" with
      | none => none
      | some v => if jIsNull v then none else some v) ∧
    (∀ kv ∈ sanitize raw, jIsNull kv.2 = false) := by
  have hdns := jIsNull_jsOr (jsLookup raw "dns") (JVal.obj []) rfl
  have hout := jIsNull_jsOr (jsLookup raw "outbounds") (JVal.arr []) rfl
  have hrt := jIsNull_jsOr (jsLookup raw "route") (JVal.obj []) rfl
  rcases hn : jsLookup raw "ntp" with _ | v
  · have hs : sanitize raw =
        [("dns", jsOr (jsLookup raw "dns") (JVal.obj [])),
         ("outbounds", jsOr (jsLookup raw "outbounds") (JVal.arr [])),
         ("route", jsOr (jsLookup raw "route") (JVal.obj []))] := by
      simp [sanitize, cleanConfigRaw, hn, hdns, hout, hrt]
    rw [hs]
    refine ⟨rfl, rfl, rfl, rfl, ?_⟩
    intro kv hkv
    simp only [List.mem_cons, List.not_mem_nil, or_false] at hkv
    rcases hkv with rfl | rfl | rfl
    · exact hdns
    · exact hout
    · exact hrt
  · by_cases hv : jIsNull v = true
    · have hs : sanitize raw =
          [("dns", jsOr (jsLookup raw "dns") (JVal.obj [])),
           ("outbounds", jsOr (jsLookup raw "outbounds") (JVal.arr [])),
           ("route", jsOr (jsLookup raw "route") (JVal.obj []))] := by
        simp [sanitize, cleanConfigRaw, hn, hdns, hout, hrt, hv]
      rw [hs]
      refine ⟨rfl, rfl, rfl, by simp [hv, jsLookup, List.find?], ?_⟩
      intro kv hkv
      simp only [List.mem_cons, List.not_mem_nil, or_false] at hkv
      rcases hkv with rfl | rfl | rfl
      · exact hdns
      · exact hout
      · exact hrt
    · rw [Bool.not_eq_true] at hv
      have hs : sanitize raw =
          [("dns", jsOr (jsLookup raw "dns") (JVal.obj [])),
           ("outbounds", jsOr (jsLookup raw "outbounds") (JVal.arr [])),
           ("route", jsOr (jsLookup raw "route") (JVal.obj [])),
           ("ntp", v)] := by
        simp [sanitize, cleanConfigRaw, hn, hdns, hout, hrt, hv]
      rw [hs]
      refine ⟨rfl, rfl, rfl, by simp [hv, jsLookup, List.find?], ?_⟩
      intro kv hkv
      simp only [List.mem_cons, List.not_mem_nil, or_false] at hkv
      rcases hkv with rfl | rfl | rfl | rfl
      · exact hdns
      · exact hout
      · exact hrt
      · exact hv

/-- Witness for the amended C3: on the document with only a null ntp field,
dns is defaulted to an empty object, ntp is dropped, and the output value at
dns is non-null. -/
theorem sanitize_defaults_amended_witness :
    jsLookup (sanitize [("ntp", JVal.null)]) "dns" = some (JVal.obj []) ∧
    jsLookup (sanitize [("ntp", JVal.null)]) "ntp" = none ∧
    jIsNull (JVal.obj []) = false := by
  have h := sanitize_defaults_amended [("ntp", JVal.null)]
  refine ⟨h.1, h.2.2.2.1, ?_⟩
  have hm : (("dns", JVal.obj []) ∈ sanitize [("ntp", JVal.null)]) := by
    rw [show sanitize [("ntp", JVal.null)] =
      [("dns", JVal.obj []), ("outbounds", JVal.arr []), ("route", JVal.obj [])] from rfl]
    exact List.mem_cons_self _ _
  exact h.2.2.2.2 ("dns", JVal.obj []) hm

/-- Claim C4.  For every `atomicWrite(path, content)` call: on success the
target path fully contains `content`; on any failure (of the temp-file write
or of the rename) the error is propagated, the original target is untouched,
and — when the best-effort unlink succeeds — the freshly named sibling
temporary file is removed; and at every intermediate filesystem state the
target holds either its original value or the full new content, never
anything else. -/
theorem atomicWrite_contract (fs : FS) (filePath content : String) (nowMs : Nat)
    (writeOk : Bool) (writePart : Option String) (renameOk unlinkOk : Bool) :
    (writeOk = true → renameOk = true →
      (atomicWrite fs filePath content nowMs writeOk writePart renameOk unlinkOk).error = none ∧
      (atomicWrite fs filePath content nowMs writeOk writePart renameOk unlinkOk).final filePath
        = some content) ∧
    (writeOk = false ∨ renameOk = false →
      ((atomicWrite fs filePath content nowMs writeOk writePart renameOk unlinkOk).error).isSome
        = true ∧
      (atomicWrite fs filePath content nowMs writeOk writePart renameOk unlinkOk).final filePath
        = fs filePath ∧
      (unlinkOk = true →
        (atomicWrite fs filePath content nowMs writeOk writePart renameOk unlinkOk).final
          (filePath ++ ".tmp." ++ toString nowMs) = none)) ∧
    (∀ g ∈ (atomicWrite fs filePath content nowMs writeOk writePart renameOk unlinkOk).states,
      g filePath = fs filePath ∨ g filePath = some content) := by
  have hne : filePath ≠ filePath ++ ".tmp." ++ toString nowMs :=
    (tempPath_ne filePath nowMs).symm
  cases writeOk <;> cases renameOk <;> rcases writePart with _ | pc <;> cases unlinkOk <;>
    simp [atomicWrite, awCleanup, fsSet, fsDel, hne] <;>
    by_cases hTmp : (fs (filePath ++ ".tmp." ++ toString nowMs)).isSome = true <;>
    simp [hTmp, fsDel, hne, Option.not_isSome_iff_eq_none] <;>
    simp [Option.not_isSome_iff_eq_none] at hTmp <;> simp [hTmp]

/-- Witness for C4: over a filesystem holding `old` at the target, a
successful call leaves the new content, and a call whose rename fails leaves
the original content and no temp file. -/
theorem atomicWrite_contract_witness :
    (atomicWrite (fun p => if p = "/a/f" then some "old" else none)
      "/a/f" "new" 7 true none true true).final "/a/f" = some "new" ∧
    (atomicWrite (fun p => if p = "/a/f" then some "old" else none)
      "/a/f" "new" 7 true none false true).final "/a/f" =
      (fun p => if p = "/a/f" then some "old" else none : FS) "/a/f" ∧
    (atomicWrite (fun p => if p = "/a/f" then some "old" else none)
      "/a/f" "new" 7 true none false true).final ("/a/f" ++ ".tmp." ++ toString 7) = none := by
  refine ⟨((atomicWrite_contract _ "/a/f" "new" 7 true none true true).1 rfl rfl).2, ?_, ?_⟩
  · exact ((atomicWrite_contract _ "/a/f" "new" 7 true none false true).2.1 (Or.inr rfl)).2.1
  · exact ((atomicWrite_contract _ "/a/f" "new" 7 true none false true).2.1 (Or.inr rfl)).2.2 rfl

/-- Claim C5.  Starting from an empty backup directory, after a sequence of
N + k archival operations with retention count N — distinct `proxy_*.json`
names, strictly increasing modification times — exactly N backups remain and
they are the N most recently created ones (the sequence's last N entries, in
order); and a pruning failure does not fail the archival: the backup is
still written and no error propagates. -/
theorem rotateBackups_retention (N k : Nat) (ops : List BEntry)
    (hN : 0 < N)
    (hlen : ops.length = N + k)
    (hmatch : ∀ e ∈ ops, matchesBackup e.name = true)
    (hnames : (ops.map BEntry.name).Nodup)
    (hmono : ops.Chain' (fun a b => a.mtime < b.mtime)) :
    ops.foldl (fun d e => rotateBackups N d e true) [] = ops.drop k ∧
    (ops.foldl (fun d e => rotateBackups N d e true) []).length = N ∧
    (∀ (dir : List BEntry) (e : BEntry), rotateBackups N dir e false = writeBackup dir e) := by
  haveI : IsTrans BEntry (fun a b => a.mtime < b.mtime) := ⟨fun a b c => Nat.lt_trans⟩
  have hpw := List.chain'_iff_pairwise.mp hmono
  have h1 := rotate_seq N hN ops hmatch hnames hpw
  have hk : ops.length - N = k := by omega
  rw [hk] at h1
  refine ⟨h1, ?_, ?_⟩
  · rw [h1, List.length_drop]
    omega
  · intro dir e
    rfl

/-- Witness for C5: three archivals with retention 2 keep exactly the last
two backups. -/
theorem rotateBackups_retention_witness :
    [(⟨"proxy_a.json", 1, "A"⟩ : BEntry), ⟨"proxy_b.json", 2, "B"⟩,
     ⟨"proxy_c.json", 3, "C"⟩].foldl (fun d e => rotateBackups 2 d e true) [] =
      [⟨"proxy_b.json", 2, "B"⟩, ⟨"proxy_c.json", 3, "C"⟩] ∧
    ([(⟨"proxy_a.json", 1, "A"⟩ : BEntry), ⟨"proxy_b.json", 2, "B"⟩,
     ⟨"proxy_c.json", 3, "C"⟩].foldl (fun d e => rotateBackups 2 d e true) []).length = 2 := by
  have h := rotateBackups_retention 2 1
    [⟨"proxy_a.json", 1, "A"⟩, ⟨"proxy_b.json", 2, "B"⟩, ⟨"proxy_c.json", 3, "C"⟩]
    (by decide) (by decide) (by decide) (by decide) (by simp [List.chain'_cons])
  exact ⟨h.1, h.2.1⟩

/-- Claim C6.  The health monitor first suspends for `INITIAL_DELAY`, then
performs up to `CHECK_COUNT` probes spaced `INTERVAL` apart; its result is
`some j` exactly when probe `j` is the first to report the daemon stopped
(no later probe is performed, and the reported index is that probe's
ordinal), and it reports success (`none`) exactly when all `CHECK_COUNT`
probes report running. -/
theorem healthWatch_contract (probes : Nat → Bool) :
    (healthWatch probes).2 =
      (if probes 0 = false then some 1
       else if probes 1 = false then some 2
       else if probes 2 = false then some 3
       else if probes 3 = false then some 4
       else if probes 4 = false then some 5
       else none) ∧
    (healthWatch probes).1 =
      (if probes 0 = false then [Ev.sleep INITIAL_DELAY, Ev.probe false]
       else if probes 1 = false then
         [Ev.sleep INITIAL_DELAY, Ev.probe true, Ev.sleep INTERVAL, Ev.probe false]
       else if probes 2 = false then
         [Ev.sleep INITIAL_DELAY, Ev.probe true, Ev.sleep INTERVAL, Ev.probe true,
          Ev.sleep INTERVAL, Ev.probe false]
       else if probes 3 = false then
         [Ev.sleep INITIAL_DELAY, Ev.probe true, Ev.sleep INTERVAL, Ev.probe true,
          Ev.sleep INTERVAL, Ev.probe true, Ev.sleep INTERVAL, Ev.probe false]
       else if probes 4 = false then
         [Ev.sleep INITIAL_DELAY, Ev.probe true, Ev.sleep INTERVAL, Ev.probe true,
          Ev.sleep INTERVAL, Ev.probe true, Ev.sleep INTERVAL, Ev.probe true,
          Ev.sleep INTERVAL, Ev.probe false]
       else
         [Ev.sleep INITIAL_DELAY, Ev.probe true, Ev.sleep INTERVAL, Ev.probe true,
          Ev.sleep INTERVAL, Ev.probe true, Ev.sleep INTERVAL, Ev.probe true,
          Ev.sleep INTERVAL, Ev.probe true]) ∧
    ((healthWatch probes).2 = none ↔
      probes 0 = true ∧ probes 1 = true ∧ probes 2 = true ∧
      probes 3 = true ∧ probes 4 = true) := by
  cases h0 : probes 0 <;> cases h1 : probes 1 <;> cases h2 : probes 2 <;>
    cases h3 : probes 3 <;> cases h4 : probes 4 <;>
    simp [healthWatch, healthLoopAux, CHECK_COUNT, h0, h1, h2, h3, h4]

/-- Claim C7.  Single-flight: an authenticated deployment request arriving
while the `isDeploying` lock is held is rejected immediately with a 429 busy
outcome, with no state change and no observable effect (no disk mutation, no
command); and every request entering with the lock free leaves the handler
with the lock released (the `finally` clears it on success, rollback and
fatal paths alike), so a subsequent attempt is always possible. -/
theorem deploy_single_flight (w : World) (s : SrvState) (req : Request) :
    (req.authorization = some ("Bearer " ++ CONFIG_TOKEN) → s.isDeploying = true →
      deploy w s req = (s, ⟨429, RBody.locked⟩, [])) ∧
    (s.isDeploying = false → ((deploy w s req).1).isDeploying = false) := by
  constructor
  · intro h1 h2
    simp [deploy, h1, h2]
  · intro h
    by_cases ha : req.authorization = some ("Bearer " ++ CONFIG_TOKEN)
    · simp [deploy, ha, h]
    · simp [deploy, ha, h]

/-- Witness for C7: a locked server rejects an authenticated request
untouched, and an unlocked server ends the request with the lock free. -/
theorem deploy_single_flight_witness :
    deploy plainWorld ⟨true, none, none, []⟩ ⟨some "Bearer my_token_123", none⟩ =
      (⟨true, none, none, []⟩, ⟨429, RBody.locked⟩, []) ∧
    ((deploy plainWorld ⟨false, none, none, []⟩
      ⟨some "Bearer my_token_123", none⟩).1).isDeploying = false := by
  exact ⟨(deploy_single_flight plainWorld _ _).1 rfl rfl,
    (deploy_single_flight plainWorld _ _).2 rfl⟩

/-- Claim C8.  The bearer credential is compared by exact string match
against `Bearer ` + the configured token; any mismatch or absence yields a
401 unauthorized outcome before any other processing, with no state change
(lock, files and backups untouched) and no observable effect (no file read
or written, no command run). -/
theorem deploy_auth_gate (w : World) (s : SrvState) (req : Request)
    (h : req.authorization ≠ some ("Bearer " ++ CONFIG_TOKEN)) :
    deploy w s req = (s, ⟨401, RBody.unauthorized⟩, []) := by
  simp [deploy, h]

/-- Witness for C8: a wrong bearer string is rejected with 401 and the state
is returned unchanged with an empty effect trace. -/
theorem deploy_auth_gate_witness :
    deploy plainWorld ⟨false, none, none, []⟩ ⟨some "Bearer wrong", none⟩ =
      (⟨false, none, none, []⟩, ⟨401, RBody.unauthorized⟩, []) :=
  deploy_auth_gate plainWorld _ _ (by decide)

/-- Counterexample to claim C9 as stated.  The claim says that after a
successful crash-loop rollback (restart succeeded, probe 2 of 5 saw the
daemon stopped, the old content was restored, the re-probe found the daemon
healthy) the system reports a recovered outcome to the caller.  The code
only logs the recovery: the HTTP response is status 500 with body
`error` carrying the original crash-loop message, so the caller receives a
failure outcome, not a recovered one. -/
theorem deploy_rollback_response_cex :
    (deploy rollbackDemoWorld rollbackDemoState rollbackDemoReq).2.1 =
      ⟨500, RBody.err "服务在启动后第 2 次轮询时发现已停止 (CrashLoop)"⟩ ∧
    ((deploy rollbackDemoWorld rollbackDemoState rollbackDemoReq).2.1).body ≠ RBody.ok ∧
    ((deploy rollbackDemoWorld rollbackDemoState rollbackDemoReq).2.1).status = 500 ∧
    (deploy rollbackDemoWorld rollbackDemoState rollbackDemoReq).1.business = some "OLD" ∧
    Ev.logMsg "✅ 回滚成功，服务已恢复" ∈
      (deploy rollbackDemoWorld rollbackDemoState rollbackDemoReq).2.2 := by
  have h1 : (deploy rollbackDemoWorld rollbackDemoState rollbackDemoReq).2.1 =
      ⟨500, RBody.err "服务在启动后第 2 次轮询时发现已停止 (CrashLoop)"⟩ := rfl
  have htr : (deploy rollbackDemoWorld rollbackDemoState rollbackDemoReq).2.2 =
      [Ev.readFile targetPath,
       Ev.writeFile (BACKUP_DIR ++ "/" ++ "proxy_20260101000000.json") "OLD",
       Ev.writeFile targetPath (stringifyObj (sanitize [])),
       Ev.cmdRun CMD_CHECK true, Ev.cmdRun CMD_RESTART true,
       Ev.sleep INITIAL_DELAY, Ev.probe true, Ev.sleep INTERVAL, Ev.probe false,
       Ev.logMsg "正在回滚至上一版本...", Ev.writeFile targetPath "OLD",
       Ev.cmdRun CMD_RESTART true, Ev.sleep 2000, Ev.probe true,
       Ev.logMsg "✅ 回滚成功，服务已恢复"] := rfl
  refine ⟨h1, ?_, ?_, rfl, ?_⟩
  · rw [h1]
    decide
  · rw [h1]
  · rw [htr]
    simp

/-- Claim C9, amended.  For a deployment over an existing business
configuration where check and restart succeed but the daemon is seen stopped
on the 2nd of 5 probes, and the rollback's restart and re-probe succeed: the
system restores the previous business file content byte-for-byte via the
atomic writer, issues another restart, waits 2 seconds, performs one
re-probe, and logs a recovered outcome — but the HTTP response to the caller
reports an error outcome (500) carrying the original crash-loop message,
with the lock released. -/
theorem deploy_rollback_amended (w : World) (lock : Bool) (bks : List BEntry)
    (old sys c : String) (raw : List (String × JVal)) (cont auth : Option String)
    (hauth : auth = some ("Bearer " ++ CONFIG_TOKEN))
    (hlock : lock = false)
    (hcontent : cont = some c) (hc : c ≠ "")
    (hdec : w.decrypt c ≠ "")
    (hparse : w.parse (w.decrypt c) = some raw)
    (hcmd0 : w.cmds 0 = none) (hcmd1 : w.cmds 1 = none)
    (hp0 : w.probes 0 = true) (hp1 : w.probes 1 = false)
    (hcmd2 : w.cmds 2 = none) (hp2 : w.probes 2 = true) :
    (deploy w ⟨lock, some old, some sys, bks⟩ ⟨auth, cont⟩).1.business = some old ∧
    (deploy w ⟨lock, some old, some sys, bks⟩ ⟨auth, cont⟩).2.1 =
      ⟨500, RBody.err (crashMsg 2)⟩ ∧
    (deploy w ⟨lock, some old, some sys, bks⟩ ⟨auth, cont⟩).2.2 =
      [Ev.readFile targetPath,
       Ev.writeFile (BACKUP_DIR ++ "/" ++ backupName w.now) old,
       Ev.writeFile targetPath (stringifyObj (sanitize raw)),
       Ev.cmdRun CMD_CHECK true, Ev.cmdRun CMD_RESTART true,
       Ev.sleep INITIAL_DELAY, Ev.probe true, Ev.sleep INTERVAL, Ev.probe false,
       Ev.logMsg "正在回滚至上一版本...", Ev.writeFile targetPath old,
       Ev.cmdRun CMD_RESTART true, Ev.sleep 2000, Ev.probe true,
       Ev.logMsg "✅ 回滚成功，服务已恢复"] ∧
    (deploy w ⟨lock, some old, some sys, bks⟩ ⟨auth, cont⟩).1.isDeploying = false := by
  subst hauth hlock hcontent
  simp [deploy, deployTry, deployCatch, healthWatch, healthLoopAux, CHECK_COUNT,
    hc, hdec, hparse, hcmd0, hcmd1, hcmd2, hp0, hp1, hp2]

/-- Witness for the amended C9, instantiated at the crash-loop demo world. -/
theorem deploy_rollback_amended_witness :
    (deploy rollbackDemoWorld rollbackDemoState rollbackDemoReq).1.business = some "OLD" ∧
    (deploy rollbackDemoWorld rollbackDemoState rollbackDemoReq).2.1 =
      ⟨500, RBody.err (crashMsg 2)⟩ ∧
    (deploy rollbackDemoWorld rollbackDemoState rollbackDemoReq).2.2 =
      [Ev.readFile targetPath,
       Ev.writeFile (BACKUP_DIR ++ "/" ++ backupName rollbackDemoWorld.now) "OLD",
       Ev.writeFile targetPath (stringifyObj (sanitize [])),
       Ev.cmdRun CMD_CHECK true, Ev.cmdRun CMD_RESTART true,
       Ev.sleep INITIAL_DELAY, Ev.probe true, Ev.sleep INTERVAL, Ev.probe false,
       Ev.logMsg "正在回滚至上一版本...", Ev.writeFile targetPath "OLD",
       Ev.cmdRun CMD_RESTART true, Ev.sleep 2000, Ev.probe true,
       Ev.logMsg "✅ 回滚成功，服务已恢复"] ∧
    (deploy rollbackDemoWorld rollbackDemoState rollbackDemoReq).1.isDeploying = false :=
  deploy_rollback_amended rollbackDemoWorld false [] "OLD" "SYS" "CIPHER" []
    (some "CIPHER") (some "Bearer my_token_123")
    rfl rfl rfl (by decide) (by decide) rfl rfl rfl rfl rfl rfl rfl

/-- Claim C10.  Backup names are the wall-clock time truncated to whole
seconds (`proxy_YYYYMMDDHHMMSS.json`): two archivals within the same second
(equal calendar fields down to the second, any milliseconds) produce the
same backup path; writing the second overwrites the first — the directory
size does not grow and the name maps to the second content. -/
theorem backupName_same_second_overwrite (t1 t2 : Timestamp)
    (dir : List BEntry) (c1 c2 : String) (m1 m2 : Nat)
    (hy : t1.year = t2.year) (hmo : t1.month = t2.month) (hd : t1.day = t2.day)
    (hh : t1.hour = t2.hour) (hmi : t1.minute = t2.minute) (hs : t1.second = t2.second) :
    backupName t1 = backupName t2 ∧
    (writeBackup (writeBackup dir ⟨backupName t1, m1, c1⟩) ⟨backupName t2, m2, c2⟩).length
      = (writeBackup dir ⟨backupName t1, m1, c1⟩).length ∧
    bLookup (writeBackup (writeBackup dir ⟨backupName t1, m1, c1⟩) ⟨backupName t2, m2, c2⟩)
      (backupName t2) = some c2 := by
  have hn : backupName t1 = backupName t2 := by
    unfold backupName
    rw [slice14_stripSeps_iso, slice14_stripSeps_iso, hy, hmo, hd, hh, hmi, hs]
  rw [hn]
  exact ⟨rfl, writeBackup_overwrite dir (backupName t2) c1 c2 m1 m2⟩

/-- Witness for C10: two instants one second-fraction apart yield the same
backup name, and the second archival overwrites the first. -/
theorem backupName_same_second_overwrite_witness :
    backupName ⟨2026, 10, 12, 3, 4, 5, 1⟩ = backupName ⟨2026, 10, 12, 3, 4, 5, 999⟩ ∧
    (writeBackup (writeBackup [] ⟨backupName ⟨2026, 10, 12, 3, 4, 5, 1⟩, 10, "A"⟩)
      ⟨backupName ⟨2026, 10, 12, 3, 4, 5, 999⟩, 20, "B"⟩).length =
      (writeBackup [] ⟨backupName ⟨2026, 10, 12, 3, 4, 5, 1⟩, 10, "A"⟩).length ∧
    bLookup (writeBackup (writeBackup [] ⟨backupName ⟨2026, 10, 12, 3, 4, 5, 1⟩, 10, "A"⟩)
      ⟨backupName ⟨2026, 10, 12, 3, 4, 5, 999⟩, 20, "B"⟩)
      (backupName ⟨2026, 10, 12, 3, 4, 5, 999⟩) = some "B" :=
  backupName_same_second_overwrite ⟨2026, 10, 12, 3, 4, 5, 1⟩ ⟨2026, 10, 12, 3, 4, 5, 999⟩
    [] "A" "B" 10 20 rfl rfl rfl rfl rfl rfl
